import Mathlib

/-!
Shallow embedding of the TusaBot core (bot.py, db.py): registration state
machine, membership aggregation, poster wizard, admin bulk-lookup mode,
weekly re-engagement pass.  Python strings are modelled over ASCII; dict
truthiness of an optional string is `truthyStr`.
-/

namespace TusaBot

/-- ASCII model of the whitespace class stripped by Python `str.strip()`. -/
def pyIsSpace (c : Char) : Bool :=
  c == ' ' || c == '\t' || c == '\n' || c == '\r' ||
  c == Char.ofNat 11 || c == Char.ofNat 12

/-- Python `str.strip()` over ASCII whitespace. -/
def pyStrip (s : String) : String :=
  String.mk (((s.toList.dropWhile pyIsSpace).reverse.dropWhile pyIsSpace).reverse)

/-- Python truthiness of an optional string value read from a dict:
`None` and `""` are falsy, every other string is truthy. -/
def truthyStr : Option String → Bool
  | none => false
  | some s => !(s == "")

/-- Python `str.isdigit()` (ASCII model): non-empty and all decimal digits. -/
def pyIsDigitStr (s : String) : Bool :=
  !s.isEmpty && s.toList.all Char.isDigit

/-- Python `str.isalnum()` (ASCII model): non-empty and all alphanumeric. -/
def pyIsAlnumStr (s : String) : Bool :=
  !s.isEmpty && s.toList.all Char.isAlphanum

/-- Auxiliary digit accumulator for `parseDigitsU`: consumes digits,
allowing a single underscore between two digits (Python int literals). -/
def parseDigitsUGo (acc : Nat) : List Char → Option Nat
  | [] => some acc
  | '_' :: c :: cs =>
      if c.isDigit then parseDigitsUGo (acc * 10 + (c.toNat - 48)) cs else none
  | c :: cs =>
      if c.isDigit then parseDigitsUGo (acc * 10 + (c.toNat - 48)) cs else none

/-- Digit-run parser for Python `int()`: non-empty digits, single
underscores permitted only between digits. -/
def parseDigitsU : List Char → Option Nat
  | [] => none
  | c :: cs => if c.isDigit then parseDigitsUGo (c.toNat - 48) cs else none

/-- Python `int(s)` on an already-stripped string (ASCII model):
optional sign followed by a digit run. Returns `none` on `ValueError`. -/
def pyParseInt (s : String) : Option Int :=
  match s.toList with
  | '+' :: cs => (parseDigitsU cs).map Int.ofNat
  | '-' :: cs => (parseDigitsU cs).map (fun n => -(n : Int))
  | cs => (parseDigitsU cs).map Int.ofNat

/-! ### Validators (bot.py lines 12-20) -/

/-- Regex class `\w` of the URL pattern (ASCII model). -/
def isWordChar (c : Char) : Bool :=
  c.isAlphanum || c == '_'

/-- Host-label characters `[\w\-]` of the URL pattern. -/
def isHostChar (c : Char) : Bool :=
  isWordChar c || c == '-'

/-- Path characters of the URL pattern. -/
def isPathChar (c : Char) : Bool :=
  isWordChar c || c == '-' || c == '.' || c == '~' || c == ':' || c == '/' ||
  c == '?' || c == '#' || c == '[' || c == ']' || c == '@' || c == '!' ||
  c == '$' || c == '&' || c == Char.ofNat 39 || c == '(' || c == ')' ||
  c == '*' || c == '+' || c == ',' || c == ';' || c == '=' || c == '%'

/-- Scheme part `(https?://)` of the URL pattern. -/
def stripScheme : List Char → Option (List Char)
  | 'h' :: 't' :: 't' :: 'p' :: 's' :: ':' :: '/' :: '/' :: rest => some rest
  | 'h' :: 't' :: 't' :: 'p' :: ':' :: '/' :: '/' :: rest => some rest
  | _ => none

/-- Host part `[\w\-]+(\.[\w\-]+)+` applied to the maximal run of
host/dot characters: at least two dot-separated non-empty labels. -/
def hostRunValid (cs : List Char) : Bool :=
  let segs := cs.splitOn '.'
  segs.length ≥ 2 && segs.all (fun l => !l.isEmpty)

/-- Optional path `(/[...]*)?$` of the URL pattern. -/
def matchPath : List Char → Bool
  | [] => true
  | '/' :: cs => cs.all isPathChar
  | _ => false

/-- Optional port `(:\d+)?` followed by the optional path. -/
def matchPortPath : List Char → Bool
  | ':' :: cs =>
      let ds := cs.takeWhile Char.isDigit
      let rest := cs.dropWhile Char.isDigit
      !ds.isEmpty && matchPath rest
  | cs => matchPath cs

/-- `is_valid_url` (bot.py:12): strip, then full match of
`^(https?://)[\w\-]+(\.[\w\-]+)+(:\d+)?(/[...]*)?$`. The regex is
deterministic here because host characters never overlap with `:`/`/`. -/
def is_valid_url (url : String) : Bool :=
  if url == "" then false
  else
    match stripScheme (pyStrip url).toList with
    | none => false
    | some rest =>
        let host := rest.takeWhile (fun c => isHostChar c || c == '.')
        let tail := rest.dropWhile (fun c => isHostChar c || c == '.')
        hostRunValid host && matchPortPath tail

/-- `is_valid_caption` (bot.py:18): length at most 1024. -/
def is_valid_caption (c : String) : Bool :=
  c.length ≤ 1024

/-! ### Data model -/

/-- A row of the `users` table (db.py `init_schema`): the columns the bot
reads back. `None` models SQL NULL. -/
structure DBRow where
  name : Option String
  gender : Option String
  age : Option Int
  vk_id : Option String
deriving DecidableEq

/-- The CHECK constraints of the `users` table (db.py:37-38):
`gender IN ('male','female')` and `age BETWEEN 14 AND 100`; NULL passes. -/
def dbRowWellFormed (r : DBRow) : Bool :=
  (match r.gender with
   | none => true
   | some g => g == "male" || g == "female") &&
  (match r.age with
   | none => true
   | some a => if 14 ≤ a ∧ a ≤ 100 then true else false)

/-- Registration step stored in `user_data["registration_step"]`. -/
inductive RegStep
  | name
  | gender
  | age
deriving DecidableEq

/-- A poster record (`{"file_id": .., "caption": .., "ticket_url": ..}`). -/
structure Poster where
  file_id : String
  caption : String
  ticket_url : Option String
deriving DecidableEq

/-- The admin poster draft (`user_data["poster_draft"]`). -/
structure PosterDraft where
  step : String
  file_id : Option String
  caption : Option String
  ticket_url : Option String
deriving DecidableEq

/-- The slice of `context.user_data` the modelled handlers read and write.
Absent dict keys are `none` / `false`. -/
structure UserData where
  name : Option String
  gender : Option String
  age : Option Int
  vk_id : Option String
  registered : Bool
  registration_step : Option RegStep
  awaiting_vk : Bool
  awaiting_username_check : Bool
  continuous_check_mode : Bool
  poster_draft : Option PosterDraft
  current_poster_index : Option Int
deriving DecidableEq

/-- A fresh `user_data` dict: every key absent. -/
def emptyUserData : UserData :=
  ⟨none, none, none, none, false, none, false, false, false, none, none⟩

/-- The slice of `context.bot_data` holding the poster list and the
current poster. -/
structure BotData where
  all_posters : List Poster
  poster : Option Poster
deriving DecidableEq

/-! ### load_user_data_from_db (bot.py:207) -/

/-- `load_user_data_from_db`: copies the DB row into `user_data` and
recomputes the `registered` flag as the truthiness conjunction
`name and gender and age is not None`; a missing row resets everything.
`vk_id` is copied only when truthy in the row. -/
def load_user_data_from_db (ud : UserData) : Option DBRow → UserData
  | some row =>
      { ud with
        name := row.name
        gender := row.gender
        age := row.age
        vk_id := if truthyStr row.vk_id then row.vk_id else ud.vk_id
        registered := truthyStr row.name && truthyStr row.gender && row.age.isSome }
  | none =>
      { ud with registered := false, name := none, gender := none,
                age := none, vk_id := none }

/-- The `is_registered` recheck used by `/start` (bot.py:466) and `/menu`
(bot.py:553): flag and all three fields present. -/
def is_registered_check (ud : UserData) : Bool :=
  ud.registered && truthyStr ud.name && truthyStr ud.gender && ud.age.isSome

/-- The spec-side registration-complete predicate (claim C1): name
non-empty, gender in {male, female}, age an integer in [14,100]. -/
def specRegistrationComplete (r : DBRow) : Bool :=
  truthyStr r.name &&
  (r.gender == some "male" || r.gender == some "female") &&
  (match r.age with
   | none => false
   | some a => if 14 ≤ a ∧ a ≤ 100 then true else false)

/-! ### /start resume logic (bot.py:446-536) -/

/-- What `/start` sends after loading the user's data. -/
inductive StartAction
  | alreadyRegistered
  | promptName
  | promptGender
  | promptAge
  | silent
deriving DecidableEq

/-- `has_partial_data` (bot.py:474). -/
def has_partial_data (ud : UserData) : Bool :=
  truthyStr ud.name || truthyStr ud.gender || ud.age.isSome

/-- The branch structure of `/start` after the DB load (bot.py:480-536):
registered users get the menu prompt; partial data resumes at the first
missing field; otherwise registration starts at the name step. -/
def start_resume_action (ud : UserData) : StartAction :=
  if is_registered_check ud then .alreadyRegistered
  else if has_partial_data ud then
    if !truthyStr ud.name then .promptName
    else if !truthyStr ud.gender then .promptGender
    else if ud.age.isNone then .promptAge
    else .silent
  else .promptName

/-- The `/start` handler: load from DB, then branch; each prompt branch
stores the matching `registration_step`, the registered branch pops the
step and the awaiting flags. -/
def start_handler (ud : UserData) (row : Option DBRow) : UserData × StartAction :=
  let ud1 := load_user_data_from_db ud row
  match start_resume_action ud1 with
  | .alreadyRegistered =>
      ({ ud1 with registration_step := none, awaiting_vk := false,
                  awaiting_username_check := false }, .alreadyRegistered)
  | .promptName => ({ ud1 with registration_step := some .name }, .promptName)
  | .promptGender => ({ ud1 with registration_step := some .gender }, .promptGender)
  | .promptAge => ({ ud1 with registration_step := some .age }, .promptAge)
  | .silent => (ud1, .silent)

/-! ### handle_registration_step (bot.py:1456) -/

/-- Reply sent by the registration step handler. -/
inductive RegReply
  | askGender
  | invalidAgeRange
  | invalidAgeFormat
  | completed
  | noReply
deriving DecidableEq

/-- `handle_registration_step`: the name step stores the stripped text and
advances to gender; the age step parses `int(text.strip())`, rejects
non-integers and ages outside [14,100] without advancing, and on success
stores the age, sets `registered`, pops the step (`dbName` models the
name fallback read from the DB when the in-memory name is missing). -/
def handle_registration_step (ud : UserData) (text : String)
    (dbName : Option String) : UserData × RegReply :=
  match ud.registration_step with
  | some .name =>
      let n := pyStrip text
      ({ ud with name := some n, registration_step := some .gender }, .askGender)
  | some .age =>
      match pyParseInt (pyStrip text) with
      | none => (ud, .invalidAgeFormat)
      | some a =>
          if a < 14 ∨ a > 100 then (ud, .invalidAgeRange)
          else
            let ud1 := { ud with age := some a, registered := true,
                                 registration_step := none }
            let ud2 := if truthyStr ud1.name then ud1
                       else if truthyStr dbName then { ud1 with name := dbName }
                       else ud1
            (ud2, .completed)
  | _ => (ud, .noReply)

/-- The `gender_*` button handler (bot.py:942-946): stores the gender and
moves the step to age. -/
def handle_gender_button (ud : UserData) (g : String) : UserData :=
  { ud with gender := some g, registration_step := some .age }

/-! ### VK linking input (bot.py:1798-1879) -/

/-- The `vk_input.lower().startswith('id') and vk_input[2:].isdigit()`
clause of the format check: the first two characters lowercase to `id`
and the remainder is a non-empty digit run. -/
def vkIdFormat : List Char → Bool
  | a :: b :: rest =>
      a.toLower == 'i' && b.toLower == 'd' &&
      !rest.isEmpty && rest.all Char.isDigit
  | _ => false

/-- Accepted VK handle formats (bot.py:1814-1818): all digits, `id` plus
digits, or a nickname of length at least 3 whose letters are alphanumeric
after dropping underscores and dots. -/
def vk_input_is_valid (s : String) : Bool :=
  pyIsDigitStr s ||
  vkIdFormat s.toList ||
  (s.length ≥ 3 && pyIsAlnumStr (String.mk
      (s.toList.filter (fun c => !(c == '_' || c == '.')))))

/-- Reply sent by the VK-linking input handler. -/
inductive VkReply
  | emptyInput
  | badFormat
  | linked (relink : Bool)
deriving DecidableEq

/-- The `awaiting_vk` branch of `handle_text` (bot.py:1798): the awaiting
flag is cleared unconditionally on entry, then the stripped input is
validated; only a valid handle is stored as `vk_id`. -/
def handle_awaiting_vk (ud : UserData) (text : String) : UserData × VkReply :=
  let ud1 := { ud with awaiting_vk := false }
  let vkInput := pyStrip text
  if vkInput == "" then (ud1, .emptyInput)
  else if !vk_input_is_valid vkInput then (ud1, .badFormat)
  else ({ ud1 with vk_id := some vkInput }, .linked (truthyStr ud.vk_id))

/-! ### Membership checks (bot.py:155-178, 712-748, 1647-1691) -/

/-- Outcome of one `get_chat_member` call: a status string, or the call
raised. -/
inductive TgCheck
  | status (s : String)
  | failed
deriving DecidableEq

/-- Per-channel boolean of `is_user_subscribed` (bot.py:155): true only
for member/administrator/creator; an exception leaves the flag `False`. -/
def tg_ok : TgCheck → Bool
  | .status s => s == "member" || s == "administrator" || s == "creator"
  | .failed => false

/-- `is_user_subscribed` returns the pair of per-channel booleans. -/
def is_user_subscribed (c1 c2 : TgCheck) : Bool × Bool :=
  (tg_ok c1, tg_ok c2)

/-- The spec's tri-state membership result. -/
inductive MembershipResult
  | confirmed
  | notMember
  | unknown
deriving DecidableEq

/-- Tri-state reading of one Telegram check. -/
def tgMembership : TgCheck → MembershipResult
  | .status s =>
      if s == "member" || s == "administrator" || s == "creator" then .confirmed
      else .notMember
  | .failed => .unknown

/-- Tri-state reading of the VK channel for a user: no linked id means the
check cannot resolve; otherwise `is_user_subscribed_vk` returns
true/false, or `none` when the call failed or VK is unconfigured. -/
def vkMembership (vk_id : Option String) (oracle : Option Bool) : MembershipResult :=
  if !truthyStr vk_id then .unknown
  else
    match oracle with
    | some true => .confirmed
    | some false => .notMember
    | none => .unknown

/-- The `check_all` aggregate verdict (bot.py:744-745):
`all_tg_ok and (not VK_ENABLED or not vk_id or vk_status)`, where
`vk_status` is only fetched when VK is enabled and an id is linked. -/
def check_all_verdict (vkEnabled : Bool) (vk_id : Option String)
    (c1 c2 : TgCheck) (vkOracle : Option Bool) : Bool :=
  let tg1 := (is_user_subscribed c1 c2).1
  let tg2 := (is_user_subscribed c1 c2).2
  let vk_status : Option Bool :=
    if vkEnabled && truthyStr vk_id then vkOracle else none
  (tg1 && tg2) && (!vkEnabled || !truthyStr vk_id || vk_status.getD false)

/-- The admin-lookup aggregate `all_ok` (bot.py:1690):
`tg1_ok and tg2_ok and (not VK_ENABLED or vk_status)`, where `vk_status`
is only fetched when an id is linked and VK is enabled. -/
def lookup_all_ok (vkEnabled : Bool) (vk_id : Option String)
    (c1 c2 : TgCheck) (vkOracle : Option Bool) : Bool :=
  let tg1 := (is_user_subscribed c1 c2).1
  let tg2 := (is_user_subscribed c1 c2).2
  let vk_status : Option Bool :=
    if truthyStr vk_id && vkEnabled then vkOracle else none
  (tg1 && tg2) && (!vkEnabled || vk_status.getD false)

/-- The claim's aggregate rule (spec wording): every configured channel
resolves to `Confirmed`; the two Telegram channels are always configured,
the VK channel is configured exactly when the integration is enabled. -/
def specAllConfiguredConfirmed (vkEnabled : Bool) (vk_id : Option String)
    (c1 c2 : TgCheck) (vkOracle : Option Bool) : Bool :=
  (tgMembership c1 == .confirmed) && (tgMembership c2 == .confirmed) &&
  (!vkEnabled || (vkMembership vk_id vkOracle == .confirmed))

/-! ### Admin bulk-lookup mode (bot.py:1111-1138, 1575-1731) -/

/-- `admin:check_by_username` (bot.py:1111): sets both the awaiting flag
and the continuous mode. -/
def admin_check_by_username (ud : UserData) : UserData :=
  { ud with awaiting_username_check := true, continuous_check_mode := true }

/-- `admin:stop_check` (bot.py:1128): clears both flags. -/
def admin_stop_check (ud : UserData) : UserData :=
  { ud with awaiting_username_check := false, continuous_check_mode := false }

/-- Terminal outcomes of one lookup in the `awaiting_username_check`
branch of `handle_text`. -/
inductive LookupOutcome
  | usernameNotFound
  | noTargetId
  | checked
  | errored
deriving DecidableEq

/-- Flag effect of handling one lookup (bot.py:1612-1731): in continuous
mode every outcome keeps the awaiting flag; otherwise the not-found,
checked and error outcomes clear it, while the degenerate
`noTargetId` reply (bot.py:1640) leaves the flags untouched. -/
def handle_username_check (ud : UserData) (o : LookupOutcome) : UserData :=
  match o with
  | .noTargetId => ud
  | _ =>
      if ud.continuous_check_mode then ud
      else { ud with awaiting_username_check := false }

/-! ### Poster wizard confirm and deletion (bot.py:898-925, 1029-1063) -/

/-- Reply of the `admin:confirm_poster` branch. -/
inductive ConfirmReply
  | noPhoto
  | captionTooLong
  | badTicketUrl
  | saved
deriving DecidableEq

/-- A draft with every field absent (`user_data.get("poster_draft") or {}`). -/
def emptyDraft : PosterDraft :=
  ⟨"", none, none, none⟩

/-- `admin:confirm_poster` (bot.py:1029-1063): requires a photo, validates
the caption (`or ""`) and the ticket URL (skipped when falsy); a failing
validation returns without touching the draft or the poster list; on
success the poster is built, stored as current, appended to
`all_posters`, and the draft is popped. -/
def confirm_poster (ud : UserData) (bd : BotData) :
    UserData × BotData × ConfirmReply :=
  let draft := ud.poster_draft.getD emptyDraft
  if !truthyStr draft.file_id then (ud, bd, .noPhoto)
  else
    let caption_ok := is_valid_caption (draft.caption.getD "")
    let link_ok := !truthyStr draft.ticket_url ||
                   is_valid_url (draft.ticket_url.getD "")
    if !caption_ok then (ud, bd, .captionTooLong)
    else if !link_ok then (ud, bd, .badTicketUrl)
    else
      let p : Poster :=
        ⟨draft.file_id.getD "", draft.caption.getD "", draft.ticket_url⟩
      ({ ud with poster_draft := none },
       { bd with poster := some p, all_posters := bd.all_posters ++ [p] },
       .saved)

/-- The `delete_poster:<i>` button (bot.py:898-925): with an in-range
index the poster is popped from the list; when the deleted poster equals
the current one, the current poster becomes the last remaining element,
or is removed when the list became empty. Returns whether a deletion
happened. -/
def delete_poster_handler (bd : BotData) (poster_index : Int) : BotData × Bool :=
  if 0 ≤ poster_index && poster_index < (bd.all_posters.length : Int) then
    match bd.all_posters.get? poster_index.toNat with
    | none => (bd, false)
    | some deleted =>
        let rest := bd.all_posters.eraseIdx poster_index.toNat
        ({ all_posters := rest,
           poster := if bd.poster = some deleted then rest.getLast?
                     else bd.poster }, true)
  else (bd, false)

/-! ### Menu poster index (bot.py:594-619) -/

/-- The current-poster index used by `show_main_menu` over a non-empty
poster list of length `n`: a missing index defaults to the last element,
an index at or past the end is clamped to the last element, a negative
one to 0. -/
def show_menu_poster_index (stored : Option Int) (n : Nat) : Int :=
  let stored1 : Option Int :=
    if stored.isNone && decide (n ≠ 0) then some ((n : Int) - 1) else stored
  let i := stored1.getD 0
  if i ≥ (n : Int) then (n : Int) - 1
  else if i < 0 then 0
  else i

/-- The poster `show_main_menu` displays: none when the list is empty,
otherwise the element at the clamped index. -/
def show_menu_poster (posters : List Poster) (stored : Option Int) : Option Poster :=
  if posters.isEmpty then none
  else posters.get? (show_menu_poster_index stored posters.length).toNat

/-! ### Weekly re-engagement pass (bot.py:1356-1376) -/

/-- One user's step of `finalize_previous_week_and_reengage`: attendance
of the previous week resets the consecutive-miss counter; otherwise the
counter is incremented and, when it exceeds 2, one re-engagement message
is sent while the counter keeps its new value. Returns the new counter
and the number of messages sent in this pass. -/
def finalize_user_week (prevKey : String) (attended : List String)
    (missed : Nat) : Nat × Nat :=
  if attended.contains prevKey then (0, 0)
  else (missed + 1, if missed + 1 > 2 then 1 else 0)

/-! ## Claims -/

/-- C1: after loading a user from a well-formed `users` row (the schema's
CHECK constraints restrict gender to male/female and age to [14,100]),
the recomputed `registered` flag, and the `is_registered` recheck done by
`/start` and `/menu` on the loaded data, both hold exactly when the name
is non-empty, the gender is male or female, and the age is an integer in
[14,100]; when no row exists the flag is reset to false. -/
theorem c1_registration_flag_iff :
    (∀ (ud : UserData) (r : DBRow), dbRowWellFormed r = true →
      (load_user_data_from_db ud (some r)).registered = specRegistrationComplete r ∧
      is_registered_check (load_user_data_from_db ud (some r)) =
        specRegistrationComplete r) ∧
    (∀ ud : UserData,
      (load_user_data_from_db ud none).registered = false ∧
      is_registered_check (load_user_data_from_db ud none) = false) := by
  constructor
  · rintro ud ⟨nm, gd, ag, vk⟩ h
    simp only [dbRowWellFormed, Bool.and_eq_true] at h
    obtain ⟨hg, ha⟩ := h
    cases gd with
    | none =>
        simp [load_user_data_from_db, is_registered_check,
              specRegistrationComplete, truthyStr]
    | some g =>
        simp only [Bool.or_eq_true, beq_iff_eq] at hg
        cases ag with
        | none =>
            simp [load_user_data_from_db, is_registered_check,
                  specRegistrationComplete]
        | some a =>
            simp only [if_pos trivial] at ha
            rcases hg with hg | hg <;> subst hg <;>
              simp [load_user_data_from_db, is_registered_check,
                    specRegistrationComplete, truthyStr, ha]
  · intro ud
    simp [load_user_data_from_db, is_registered_check, truthyStr]

/-- Witness for C1 at a concrete well-formed row. -/
theorem c1_registration_flag_iff_witness :
    dbRowWellFormed ⟨some "Bob", some "male", some 20, none⟩ = true ∧
    (load_user_data_from_db emptyUserData
        (some ⟨some "Bob", some "male", some 20, none⟩)).registered =
      specRegistrationComplete ⟨some "Bob", some "male", some 20, none⟩ :=
  ⟨by rfl,
   (c1_registration_flag_iff.1 emptyUserData
      ⟨some "Bob", some "male", some 20, none⟩ (by rfl)).1⟩

/-- C2 is false on the code: with the VK integration enabled and both
Telegram checks confirmed, a user with no linked VK id is reported as
passing all checks by `check_all`, although the configured VK channel
does not resolve to Confirmed; the admin-lookup aggregate disagrees with
`check_all` on the same input; and a failed Telegram check is coerced to
the same boolean as a non-member status. -/
theorem c2_counterexample :
    check_all_verdict true none (.status "member") (.status "member") none = true ∧
    specAllConfiguredConfirmed true none (.status "member") (.status "member") none
      = false ∧
    lookup_all_ok true none (.status "member") (.status "member") none = false ∧
    tg_ok .failed = tg_ok (.status "left") :=
  ⟨rfl, rfl, rfl, rfl⟩

/-- C2 amended: the Telegram results are booleans in which a failed check
counts as not-subscribed; with VK disabled both aggregates are exactly
the conjunction of the two Telegram booleans (so disabling VK never
downgrades a passing Telegram-only check); with VK enabled, `check_all`
also passes when no VK id is linked, while for a linked id both
aggregates additionally require the VK oracle to return true. -/
theorem c2_amended_aggregates :
    (∀ (vid : Option String) (c1 c2 : TgCheck) (o : Option Bool),
      check_all_verdict false vid c1 c2 o = (tg_ok c1 && tg_ok c2)) ∧
    (∀ (vid : Option String) (c1 c2 : TgCheck) (o : Option Bool),
      lookup_all_ok false vid c1 c2 o = (tg_ok c1 && tg_ok c2)) ∧
    (∀ (c1 c2 : TgCheck) (o : Option Bool),
      check_all_verdict true none c1 c2 o = (tg_ok c1 && tg_ok c2)) ∧
    (∀ (vid : Option String) (c1 c2 : TgCheck) (o : Option Bool),
      truthyStr vid = true →
      check_all_verdict true vid c1 c2 o =
        (tg_ok c1 && tg_ok c2 && (o == some true)) ∧
      lookup_all_ok true vid c1 c2 o =
        (tg_ok c1 && tg_ok c2 && (o == some true))) := by
  refine ⟨?_, ?_, ?_, ?_⟩
  · intro vid c1 c2 o
    simp [check_all_verdict, is_user_subscribed]
  · intro vid c1 c2 o
    simp [lookup_all_ok, is_user_subscribed]
  · intro c1 c2 o
    simp [check_all_verdict, is_user_subscribed, truthyStr]
  · intro vid c1 c2 o h
    constructor <;>
      · simp only [check_all_verdict, lookup_all_ok, is_user_subscribed, h]
        rcases o with _ | b
        · simp
        · cases b <;> simp

/-- Witness for C2 amended at a linked id with a confirming oracle. -/
theorem c2_amended_aggregates_witness :
    truthyStr (some "id1") = true ∧
    check_all_verdict true (some "id1") (.status "member") (.status "member")
        (some true) =
      (tg_ok (.status "member") && tg_ok (.status "member") &&
        ((some true : Option Bool) == some true)) :=
  ⟨rfl, (c2_amended_aggregates.2.2.2 (some "id1") (.status "member")
          (.status "member") (some true) rfl).1⟩

/-- C3: `/start` on a persisted row resumes at the first missing field:
only the name set prompts for gender (never name again), name and gender
set prompts for age, nothing set starts at name; the stored registration
step matches the prompt. -/
theorem c3_start_resumes_first_missing :
    ∀ (ud : UserData) (r : DBRow),
      (truthyStr r.name = true → truthyStr r.gender = false →
        (start_handler ud (some r)).2 = .promptGender ∧
        (start_handler ud (some r)).1.registration_step = some .gender) ∧
      (truthyStr r.name = true → truthyStr r.gender = true → r.age = none →
        (start_handler ud (some r)).2 = .promptAge ∧
        (start_handler ud (some r)).1.registration_step = some .age) ∧
      (truthyStr r.name = false → truthyStr r.gender = false → r.age = none →
        (start_handler ud (some r)).2 = .promptName ∧
        (start_handler ud (some r)).1.registration_step = some .name) := by
  intro ud r
  refine ⟨fun h1 h2 => ?_, fun h1 h2 h3 => ?_, fun h1 h2 h3 => ?_⟩ <;>
    simp [start_handler, load_user_data_from_db, start_resume_action,
          is_registered_check, has_partial_data, h1, h2, *]

/-- Witness for C3 at concrete partial rows. -/
theorem c3_start_resumes_first_missing_witness :
    ((start_handler emptyUserData (some ⟨some "Bob", none, none, none⟩)).2 =
        .promptGender ∧
      (start_handler emptyUserData
          (some ⟨some "Bob", none, none, none⟩)).1.registration_step =
        some .gender) ∧
    ((start_handler emptyUserData
          (some ⟨some "Bob", some "male", none, none⟩)).2 = .promptAge ∧
      (start_handler emptyUserData
          (some ⟨some "Bob", some "male", none, none⟩)).1.registration_step =
        some .age) ∧
    ((start_handler emptyUserData (some ⟨none, none, none, none⟩)).2 =
        .promptName ∧
      (start_handler emptyUserData
          (some ⟨none, none, none, none⟩)).1.registration_step = some .name) :=
  ⟨(c3_start_resumes_first_missing emptyUserData
      ⟨some "Bob", none, none, none⟩).1 rfl rfl,
   (c3_start_resumes_first_missing emptyUserData
      ⟨some "Bob", some "male", none, none⟩).2.1 rfl rfl rfl,
   (c3_start_resumes_first_missing emptyUserData
      ⟨none, none, none, none⟩).2.2 rfl rfl rfl⟩

/-- C4: at the age step, input that does not parse as an integer or
parses outside [14,100] is rejected with the matching error reply and
the state is unchanged (the step does not advance); input parsing inside
[14,100] — boundaries included — stores the age, sets the registered
flag and pops the registration step. -/
theorem c4_age_validation :
    ∀ (ud : UserData) (text : String) (dbName : Option String),
      ud.registration_step = some .age →
      (pyParseInt (pyStrip text) = none →
        handle_registration_step ud text dbName = (ud, .invalidAgeFormat)) ∧
      (∀ a : Int, pyParseInt (pyStrip text) = some a → (a < 14 ∨ a > 100) →
        handle_registration_step ud text dbName = (ud, .invalidAgeRange)) ∧
      (∀ a : Int, pyParseInt (pyStrip text) = some a → 14 ≤ a → a ≤ 100 →
        (handle_registration_step ud text dbName).2 = .completed ∧
        (handle_registration_step ud text dbName).1.age = some a ∧
        (handle_registration_step ud text dbName).1.registered = true ∧
        (handle_registration_step ud text dbName).1.registration_step = none) := by
  intro ud text dbName hstep
  refine ⟨fun hp => ?_, fun a hp hout => ?_, fun a hp h14 h100 => ?_⟩
  · simp [handle_registration_step, hstep, hp]
  · simp [handle_registration_step, hstep, hp, hout]
  · have hnot : ¬(a < 14 ∨ a > 100) := by omega
    by_cases hn : truthyStr ud.name <;> by_cases hd : truthyStr dbName <;>
      simp [handle_registration_step, hstep, hp, hnot, hn, hd]

/-- Witness for C4: "abc", "13" and "101" are rejected without advancing
and "14" and "100" complete the step. -/
theorem c4_age_validation_witness :
    ({ emptyUserData with registration_step := some RegStep.age } :
        UserData).registration_step = some RegStep.age ∧
    handle_registration_step
        { emptyUserData with registration_step := some RegStep.age } "abc" none =
      ({ emptyUserData with registration_step := some RegStep.age },
        .invalidAgeFormat) ∧
    handle_registration_step
        { emptyUserData with registration_step := some RegStep.age } "13" none =
      ({ emptyUserData with registration_step := some RegStep.age },
        .invalidAgeRange) ∧
    handle_registration_step
        { emptyUserData with registration_step := some RegStep.age } "101" none =
      ({ emptyUserData with registration_step := some RegStep.age },
        .invalidAgeRange) ∧
    (handle_registration_step
        { emptyUserData with registration_step := some RegStep.age } "14" none).2 =
      .completed ∧
    (handle_registration_step
        { emptyUserData with registration_step := some RegStep.age } "100"
        none).2 = .completed :=
  ⟨rfl,
   (c4_age_validation _ "abc" none rfl).1 (by rfl),
   (c4_age_validation _ "13" none rfl).2.1 13 (by rfl) (by omega),
   (c4_age_validation _ "101" none rfl).2.1 101 (by rfl) (by omega),
   ((c4_age_validation _ "14" none rfl).2.2 14 (by rfl) (by omega) (by omega)).1,
   ((c4_age_validation _ "100" none rfl).2.2 100 (by rfl) (by omega)
      (by omega)).1⟩

/-- C5: entering bulk-lookup mode sets the awaiting flag together with
continuous mode; handling a lookup in continuous mode never changes the
awaiting flag; the explicit stop action clears it; a lookup completed
with continuous mode off clears it; and whenever handling a lookup
cleared the flag, continuous mode was off. -/
theorem c5_continuous_lookup_flag :
    (∀ ud : UserData,
      (admin_check_by_username ud).awaiting_username_check = true ∧
      (admin_check_by_username ud).continuous_check_mode = true) ∧
    (∀ (ud : UserData) (o : LookupOutcome), ud.continuous_check_mode = true →
      (handle_username_check ud o).awaiting_username_check =
        ud.awaiting_username_check) ∧
    (∀ ud : UserData, (admin_stop_check ud).awaiting_username_check = false) ∧
    (∀ (ud : UserData) (o : LookupOutcome),
      ud.continuous_check_mode = false → o ≠ .noTargetId →
      (handle_username_check ud o).awaiting_username_check = false) ∧
    (∀ (ud : UserData) (o : LookupOutcome),
      ud.awaiting_username_check = true →
      (handle_username_check ud o).awaiting_username_check = false →
      ud.continuous_check_mode = false) := by
  refine ⟨fun ud => ⟨rfl, rfl⟩, fun ud o h => ?_, fun ud => rfl,
          fun ud o h hno => ?_, fun ud o h1 h2 => ?_⟩
  · cases o <;> simp [handle_username_check, h]
  · cases o <;> simp_all [handle_username_check]
  · cases o <;> by_cases hc : ud.continuous_check_mode <;>
      simp_all [handle_username_check]

/-- Witness for C5: one continuous lookup keeps the flag, a stop clears
it, a non-continuous lookup clears it. -/
theorem c5_continuous_lookup_flag_witness :
    (admin_check_by_username emptyUserData).continuous_check_mode = true ∧
    (handle_username_check (admin_check_by_username emptyUserData)
        .checked).awaiting_username_check =
      (admin_check_by_username emptyUserData).awaiting_username_check ∧
    ({ emptyUserData with awaiting_username_check := true } :
        UserData).continuous_check_mode = false ∧
    (handle_username_check { emptyUserData with awaiting_username_check := true }
        .checked).awaiting_username_check = false :=
  ⟨rfl,
   c5_continuous_lookup_flag.2.1 (admin_check_by_username emptyUserData)
     .checked rfl,
   rfl,
   c5_continuous_lookup_flag.2.2.2.1
     { emptyUserData with awaiting_username_check := true } .checked rfl
     (by simp)⟩

set_option maxRecDepth 8192 in
/-- C6: at poster confirm, a caption of length 1024 passes and one of
length 1025 fails validation; the ticket URL "ftp://x" is rejected and
"https://x.com/a" accepted; a draft failing caption or URL validation is
left untouched (kept alive) and the reply names the violated rule, while
a draft passing validation is saved. -/
theorem c6_confirm_poster_validation :
    is_valid_caption (String.mk (List.replicate 1024 'a')) = true ∧
    is_valid_caption (String.mk (List.replicate 1025 'a')) = false ∧
    is_valid_url "ftp://x" = false ∧
    is_valid_url "https://x.com/a" = true ∧
    (∀ (ud : UserData) (bd : BotData) (d : PosterDraft),
      ud.poster_draft = some d → truthyStr d.file_id = true →
      is_valid_caption (d.caption.getD "") = false →
      confirm_poster ud bd = (ud, bd, .captionTooLong)) ∧
    (∀ (ud : UserData) (bd : BotData) (d : PosterDraft),
      ud.poster_draft = some d → truthyStr d.file_id = true →
      is_valid_caption (d.caption.getD "") = true →
      truthyStr d.ticket_url = true →
      is_valid_url (d.ticket_url.getD "") = false →
      confirm_poster ud bd = (ud, bd, .badTicketUrl)) ∧
    (∀ (ud : UserData) (bd : BotData) (d : PosterDraft),
      ud.poster_draft = some d → truthyStr d.file_id = true →
      is_valid_caption (d.caption.getD "") = true →
      (truthyStr d.ticket_url = false ∨
        is_valid_url (d.ticket_url.getD "") = true) →
      (confirm_poster ud bd).2.2 = .saved ∧
      (confirm_poster ud bd).2.1.all_posters =
        bd.all_posters ++
          [⟨d.file_id.getD "", d.caption.getD "", d.ticket_url⟩] ∧
      (confirm_poster ud bd).1.poster_draft = none) := by
  refine ⟨by decide, by decide, by rfl, by rfl, ?_, ?_, ?_⟩
  · intro ud bd d hd hf hc
    simp [confirm_poster, hd, hf, hc]
  · intro ud bd d hd hf hc ht hu
    simp [confirm_poster, hd, hf, hc, ht, hu]
  · intro ud bd d hd hf hc hl
    rcases hl with hl | hl <;> simp [confirm_poster, hd, hf, hc, hl]

/-- Witness for C6: a concrete draft with a bad ticket URL is kept alive,
and the same draft with a valid URL is saved. -/
theorem c6_confirm_poster_validation_witness :
    confirm_poster
        { emptyUserData with
            poster_draft := some ⟨"preview", some "f1", some "cap",
              some "ftp://x"⟩ }
        ⟨[], none⟩ =
      ({ emptyUserData with
          poster_draft := some ⟨"preview", some "f1", some "cap",
            some "ftp://x"⟩ },
       ⟨[], none⟩, .badTicketUrl) ∧
    (confirm_poster
        { emptyUserData with
            poster_draft := some ⟨"preview", some "f1", some "cap",
              some "https://x.com/a"⟩ }
        ⟨[], none⟩).2.2 = .saved :=
  ⟨c6_confirm_poster_validation.2.2.2.2.2.1
     { emptyUserData with
         poster_draft := some ⟨"preview", some "f1", some "cap",
           some "ftp://x"⟩ }
     ⟨[], none⟩ ⟨"preview", some "f1", some "cap", some "ftp://x"⟩
     rfl rfl rfl rfl rfl,
   (c6_confirm_poster_validation.2.2.2.2.2.2
      { emptyUserData with
          poster_draft := some ⟨"preview", some "f1", some "cap",
            some "https://x.com/a"⟩ }
      ⟨[], none⟩ ⟨"preview", some "f1", some "cap", some "https://x.com/a"⟩
      rfl rfl rfl (Or.inr rfl)).1⟩

/-- C7: deleting the poster at an in-range index removes exactly that
element (order of the rest preserved); when the deleted poster was the
current one, the current poster becomes the last element of the
remaining list (`getLast?` is `none` when it became empty), otherwise
the current poster is unchanged. -/
theorem c7_delete_poster :
    ∀ (bd : BotData) (i : Nat) (p : Poster),
      bd.all_posters.get? i = some p →
      (delete_poster_handler bd (i : Int)).1.all_posters =
        bd.all_posters.take i ++ bd.all_posters.drop (i + 1) ∧
      (delete_poster_handler bd (i : Int)).1.all_posters.length + 1 =
        bd.all_posters.length ∧
      (bd.poster = some p →
        (delete_poster_handler bd (i : Int)).1.poster =
          (bd.all_posters.eraseIdx i).getLast?) ∧
      (bd.poster ≠ some p →
        (delete_poster_handler bd (i : Int)).1.poster = bd.poster) ∧
      (delete_poster_handler bd (i : Int)).2 = true := by
  intro bd i p h
  have hlt : i < bd.all_posters.length := (List.get?_eq_some.mp h).1
  have h1 : (i : Int) < (bd.all_posters.length : Int) := by exact_mod_cast hlt
  have hcond : (decide ((0 : Int) ≤ (i : Int)) &&
      decide ((i : Int) < (bd.all_posters.length : Int))) = true := by
    simp [h1, Int.natCast_nonneg]
  simp only [delete_poster_handler, hcond, if_true, Int.toNat_natCast, h]
  refine ⟨List.eraseIdx_eq_take_drop_succ _ _,
          List.length_eraseIdx_add_one hlt, ?_, ?_, ?_⟩
  · intro hp
    simp [hp]
  · intro hp
    simp [hp]
  · trivial

/-- Witness for C7: deleting index 2 of a 3-poster list whose current
poster is the deleted one leaves ["a","b"] with "b" current. -/
theorem c7_delete_poster_witness :
    ([⟨"a", "", none⟩, ⟨"b", "", none⟩, ⟨"c", "", none⟩] :
        List Poster).get? 2 = some ⟨"c", "", none⟩ ∧
    (delete_poster_handler
        ⟨[⟨"a", "", none⟩, ⟨"b", "", none⟩, ⟨"c", "", none⟩],
          some ⟨"c", "", none⟩⟩ (2 : Nat)).1.all_posters =
      ([⟨"a", "", none⟩, ⟨"b", "", none⟩, ⟨"c", "", none⟩] :
        List Poster).take 2 ++
        ([⟨"a", "", none⟩, ⟨"b", "", none⟩, ⟨"c", "", none⟩] :
          List Poster).drop 3 ∧
    (delete_poster_handler
        ⟨[⟨"a", "", none⟩, ⟨"b", "", none⟩, ⟨"c", "", none⟩],
          some ⟨"c", "", none⟩⟩ (2 : Nat)).1.poster =
      (([⟨"a", "", none⟩, ⟨"b", "", none⟩, ⟨"c", "", none⟩] :
        List Poster).eraseIdx 2).getLast? :=
  ⟨rfl,
   (c7_delete_poster
      ⟨[⟨"a", "", none⟩, ⟨"b", "", none⟩, ⟨"c", "", none⟩],
        some ⟨"c", "", none⟩⟩ 2 ⟨"c", "", none⟩ rfl).1,
   (c7_delete_poster
      ⟨[⟨"a", "", none⟩, ⟨"b", "", none⟩, ⟨"c", "", none⟩],
        some ⟨"c", "", none⟩⟩ 2 ⟨"c", "", none⟩ rfl).2.2.1 rfl⟩

/-- C8: in one weekly pass, a user whose attendance set contains the
previous week's key has the consecutive-miss counter reset to 0 and gets
no send; an absent user's counter is incremented and exactly one send
happens exactly when the new value exceeds 2 (the counter keeps its new
value); a user absent three consecutive weeks from a fresh counter gets
no send on the first two passes, exactly one on the third, ends at
counter 3, and a following attended week resets the counter to 0. -/
theorem c8_reengage_pass :
    (∀ (k : String) (att : List String) (m : Nat), att.contains k = true →
      finalize_user_week k att m = (0, 0)) ∧
    (∀ (k : String) (att : List String) (m : Nat), att.contains k = false →
      (finalize_user_week k att m).1 = m + 1 ∧
      ((finalize_user_week k att m).2 = 1 ↔ m + 1 > 2) ∧
      ((finalize_user_week k att m).2 = 0 ↔ m + 1 ≤ 2)) ∧
    (∀ k1 k2 k3 : String,
      (finalize_user_week k1 [] 0).2 = 0 ∧
      (finalize_user_week k2 [] (finalize_user_week k1 [] 0).1).2 = 0 ∧
      (finalize_user_week k3 []
          (finalize_user_week k2 [] (finalize_user_week k1 [] 0).1).1).2 = 1 ∧
      (finalize_user_week k3 []
          (finalize_user_week k2 [] (finalize_user_week k1 [] 0).1).1).1 = 3) ∧
    (∀ (k : String) (att : List String), att.contains k = true →
      (finalize_user_week k att 3).1 = 0) := by
  refine ⟨fun k att m h => ?_, fun k att m h => ?_, fun k1 k2 k3 => ?_,
          fun k att h => ?_⟩
  · have hm : k ∈ att := by simpa using h
    simp [finalize_user_week, hm]
  · have hm : k ∉ att := by simpa using h
    have he : finalize_user_week k att m =
        (m + 1, if m + 1 > 2 then 1 else 0) := by
      simp [finalize_user_week, hm]
    rw [he]
    refine ⟨rfl, ?_, ?_⟩ <;> split_ifs with hc <;> simp [hc] <;> omega
  · refine ⟨?_, ?_, ?_, ?_⟩ <;> simp [finalize_user_week]
  · have hm : k ∈ att := by simpa using h
    simp [finalize_user_week, hm]

/-- Witness for C8: a user who attended week "2024-W01" resets to 0, and
one who missed it with counter 2 moves to 3 with one send. -/
theorem c8_reengage_pass_witness :
    (List.contains ["2024-W01"] "2024-W01" = true ∧
      finalize_user_week "2024-W01" ["2024-W01"] 2 = (0, 0)) ∧
    (List.contains ([] : List String) "2024-W01" = false ∧
      (finalize_user_week "2024-W01" [] 2).1 = 3 ∧
      ((finalize_user_week "2024-W01" [] 2).2 = 1 ↔ 3 > 2)) :=
  ⟨⟨by decide, c8_reengage_pass.1 "2024-W01" ["2024-W01"] 2 (by decide)⟩,
   ⟨by decide, (c8_reengage_pass.2.1 "2024-W01" [] 2 (by decide)).1,
    (c8_reengage_pass.2.1 "2024-W01" [] 2 (by decide)).2.1⟩⟩

/-- C9 is false on the code: submitting the badly formatted handle "ab"
while in VK-linking mode produces the corrective reply and stores no
vk_id, but the awaiting-vk flag has been cleared on entry, so the
linking mode IS lost (the session does not remain in linking mode). -/
theorem c9_counterexample :
    (handle_awaiting_vk { emptyUserData with awaiting_vk := true }
        "ab").1.awaiting_vk = false ∧
    (handle_awaiting_vk { emptyUserData with awaiting_vk := true } "ab").2 =
      .badFormat ∧
    (handle_awaiting_vk { emptyUserData with awaiting_vk := true }
        "ab").1.vk_id = none :=
  ⟨by decide, by decide, by decide⟩

/-- C9 amended: a badly formatted handle (empty after stripping, or not
digits / id-digits / a 3+-character nickname over letters, digits,
underscores and dots) gets the matching corrective reply and no vk_id is
stored, but the awaiting-vk flag is cleared on entry to the handler, so
recovery goes through the retry button rather than the mode persisting. -/
theorem c9_amended_vk_bad_input :
    ∀ (ud : UserData) (text : String),
      (pyStrip text = "" →
        handle_awaiting_vk ud text =
          ({ ud with awaiting_vk := false }, .emptyInput)) ∧
      (pyStrip text ≠ "" → vk_input_is_valid (pyStrip text) = false →
        handle_awaiting_vk ud text =
          ({ ud with awaiting_vk := false }, .badFormat)) := by
  intro ud text
  refine ⟨fun h => ?_, fun h1 h2 => ?_⟩
  · simp [handle_awaiting_vk, h]
  · simp [handle_awaiting_vk, h1, h2]

/-- Witness for C9 amended at the inputs "ab" and "   ". -/
theorem c9_amended_vk_bad_input_witness :
    (pyStrip "   " = "" ∧
      handle_awaiting_vk emptyUserData "   " =
        ({ emptyUserData with awaiting_vk := false }, .emptyInput)) ∧
    (pyStrip "ab" ≠ "" ∧ vk_input_is_valid (pyStrip "ab") = false ∧
      handle_awaiting_vk emptyUserData "ab" =
        ({ emptyUserData with awaiting_vk := false }, .badFormat)) :=
  ⟨⟨by decide, (c9_amended_vk_bad_input emptyUserData "   ").1 (by decide)⟩,
   ⟨by decide, by decide,
    (c9_amended_vk_bad_input emptyUserData "ab").2 (by decide) (by decide)⟩⟩

/-- Bounds of the clamped menu index over a non-empty list. -/
theorem menu_index_bounds (stored : Option Int) (n : Nat) (hn : 0 < n) :
    0 ≤ show_menu_poster_index stored n ∧
    show_menu_poster_index stored n < (n : Int) := by
  have hne : n ≠ 0 := Nat.pos_iff_ne_zero.mp hn
  rcases stored with _ | i
  · simp [show_menu_poster_index, hne]
    omega
  · simp [show_menu_poster_index]
    split_ifs <;> omega

/-- The menu's poster lookup succeeds on every non-empty list. -/
theorem menu_poster_found (posters : List Poster) (stored : Option Int)
    (hne : posters ≠ []) : (show_menu_poster posters stored).isSome = true := by
  have hn : 0 < posters.length := List.length_pos.mpr hne
  obtain ⟨h0, hlt⟩ := menu_index_bounds stored posters.length hn
  rw [show_menu_poster, if_neg (by simp [hne])]
  cases hg : posters.get? (show_menu_poster_index stored posters.length).toNat with
  | none =>
      have := List.get?_eq_none.mp hg
      omega
  | some p => rfl

/-- C10: over a non-empty poster list the menu's clamped current-poster
index is always in bounds — a missing stored index defaults to the last
element, an index at or past the end is clamped to the last element, a
negative one to 0, an in-range one is kept — and the menu's poster
lookup therefore always finds an element. -/
theorem c10_menu_index_in_bounds :
    (∀ (stored : Option Int) (n : Nat), 0 < n →
      (0 ≤ show_menu_poster_index stored n ∧
        show_menu_poster_index stored n < (n : Int)) ∧
      (stored = none → show_menu_poster_index stored n = (n : Int) - 1) ∧
      (∀ i : Int, stored = some i → (n : Int) ≤ i →
        show_menu_poster_index stored n = (n : Int) - 1) ∧
      (∀ i : Int, stored = some i → i < 0 →
        show_menu_poster_index stored n = 0) ∧
      (∀ i : Int, stored = some i → 0 ≤ i → i < (n : Int) →
        show_menu_poster_index stored n = i)) ∧
    (∀ (posters : List Poster) (stored : Option Int), posters ≠ [] →
      (show_menu_poster posters stored).isSome = true) := by
  refine ⟨fun stored n hn => ?_, menu_poster_found⟩
  have hne : n ≠ 0 := Nat.pos_iff_ne_zero.mp hn
  refine ⟨menu_index_bounds stored n hn, fun hs => ?_, fun i hs hge => ?_,
          fun i hs hlt => ?_, fun i hs h0 hltn => ?_⟩ <;> subst hs <;>
    simp [show_menu_poster_index, hne] <;> omega

/-- Witness for C10: a 3-element list with a stored index 7, a missing
index, and a stored index -1. -/
theorem c10_menu_index_in_bounds_witness :
    (0 : Nat) < 3 ∧
    show_menu_poster_index (some 7) 3 = (3 : Int) - 1 ∧
    show_menu_poster_index none 3 = (3 : Int) - 1 ∧
    show_menu_poster_index (some (-1)) 3 = 0 ∧
    (show_menu_poster
        [⟨"a", "", none⟩, ⟨"b", "", none⟩, ⟨"c", "", none⟩]
        (some 7)).isSome = true :=
  ⟨by decide,
   (c10_menu_index_in_bounds.1 (some 7) 3 (by decide)).2.2.1 7 rfl (by decide),
   (c10_menu_index_in_bounds.1 none 3 (by decide)).2.1 rfl,
   (c10_menu_index_in_bounds.1 (some (-1)) 3 (by decide)).2.2.2.1 (-1) rfl
     (by decide),
   c10_menu_index_in_bounds.2
     [⟨"a", "", none⟩, ⟨"b", "", none⟩, ⟨"c", "", none⟩] (some 7)
     (by simp)⟩

end TusaBot
